import Mathlib

/-!
# Snowball mobile screens: session and message-ordering contract

A shallow embedding of the two React Native screens of the repository,

* `src/SnowballMobileApp/App.js` (namespace `App`), and
* `src/mobile_integration/chat_app/ChatApp.js` (namespace `ChatApp`).

Every handler of the source (`sendCommand`, `Voice.onSpeechResults`, `ws.onmessage`,
`sendMessage`, `socket.onmessage`) is a pure function from the bindings its closure captured
to an `Outcome`: the list of effects it performs, in program order, and the exception it
raises, if any.  Effects are then applied to the state cells of the component (`World`).
On top of the handlers, `App.Screen` and `ChatApp.Screen` model what React does between
handler invocations: re-rendering, comparing the dependency array of `useEffect`, running the
effect cleanup and the effect body.

Conventions.

* A JavaScript string is a Lean `String`.  `String.prototype.trim` only looks at code points of
  the Basic Multilingual Plane, so working with code points instead of UTF-16 units does not
  change it.
* The text of an inbound frame is represented by what `JSON.parse` makes of it (`WireText`);
  an outbound frame is represented by the object handed to `JSON.stringify`.
* The transport (`WebSocket`) is a collaborator outside the repository.  `ws.send(x)` is
  recorded as the effect `send c x` on connection `c`; an inbound event is the transport
  calling the `onmessage` function installed on a connection.
-/

namespace Snowball

/-! ## JavaScript values -/

/-- JavaScript values reachable in the two screens: the results of `JSON.parse`, plus
`undefined`.  A number keeps its literal text, the handlers never compute with it. -/
inductive JsVal where
  | undefined : JsVal
  | null : JsVal
  | bool (b : Bool) : JsVal
  | num (literal : String) : JsVal
  | str (s : String) : JsVal
  | arr (items : List JsVal) : JsVal
  | obj (fields : List (String × JsVal)) : JsVal

/-- Exceptions raised by the operations the handlers use. -/
inductive JsError where
  /-- Raised by `JSON.parse` on a text that is no JSON document. -/
  | syntaxError : JsError
  /-- Raised by a property access or method call on `undefined` or `null`. -/
  | typeError : JsError
  deriving DecidableEq, Repr

/-- Code points removed by `String.prototype.trim`: the ECMAScript `WhiteSpace` and
`LineTerminator` productions (TAB, LF, VT, FF, CR, SP, NBSP, the Unicode space separators,
LS, PS and the byte order mark). -/
def whiteSpaceCodes : List Nat :=
  [0x09, 0x0A, 0x0B, 0x0C, 0x0D, 0x20, 0xA0, 0x1680,
   0x2000, 0x2001, 0x2002, 0x2003, 0x2004, 0x2005, 0x2006, 0x2007, 0x2008, 0x2009, 0x200A,
   0x2028, 0x2029, 0x202F, 0x205F, 0x3000, 0xFEFF]

/-- Whether `trim` strips the character. -/
def isWhiteSpace (c : Char) : Bool :=
  whiteSpaceCodes.contains c.toNat

/-- Strip white space from the front of a list of characters. -/
def trimStart : List Char → List Char
  | [] => []
  | c :: cs => if isWhiteSpace c then trimStart cs else c :: cs

/-- Embedding of `String.prototype.trim`: white space is removed from both ends. -/
def trim (s : String) : String :=
  ⟨(trimStart (trimStart s.data).reverse).reverse⟩

/-- Truthiness of a string used as a condition: only the empty string is falsy. -/
def truthy (s : String) : Bool :=
  !s.data.isEmpty

/-- Property read `v.name` for a name that is not a built-in property of strings, numbers,
booleans or arrays (here `reply` and `response`): it raises on `undefined` and `null`, looks
the name up in an object, and is `undefined` on every other value. -/
def getProp (v : JsVal) (name : String) : Except JsError JsVal :=
  match v with
  | .undefined => .error .typeError
  | .null => .error .typeError
  | .obj fields => .ok ((fields.lookup name).getD .undefined)
  | _ => .ok .undefined

/-- Text of an inbound frame, represented by what it denotes: `json v` is a text that is the
JSON encoding of `v`, `garbage raw` is a text that is no JSON document. -/
inductive WireText where
  | json (v : JsVal) : WireText
  | garbage (raw : String) : WireText

/-- Embedding of `JSON.parse` on the text of a frame. -/
def JSON_parse : WireText → Except JsError JsVal
  | .json v => .ok v
  | .garbage _ => .error .syntaxError

/-- One transcript entry, `{ sender, text }`.  The text is whatever value the handler stored:
a string for a submission, the value of the reply field for an inbound frame. -/
structure Message where
  sender : String
  text : JsVal

/-- What a handler does to the outside, one constructor per kind of call in the source. -/
inductive Effect where
  /-- Call `setMessages(v)` of `App.js`: replace the transcript by the value `v`. -/
  | setMessages (v : List Message) : Effect
  /-- Call `setChatHistory(prevHistory => [...prevHistory, m])` of `ChatApp.js`: append `m` to
  the transcript as it is when the update is applied. -/
  | setChatHistory (m : Message) : Effect
  /-- Call `setChatHistory(prevHistory => [...prevHistory, { sender: 'Snowball', text:
  data.response }])` of `ChatApp.js` (line 16): the property `response` of `data` is read when
  the update is applied, not when the call is made. -/
  | setChatHistoryReply (data : JsVal) : Effect
  /-- Call `setInput(v)` of `App.js`: the input buffer. -/
  | setInput (v : String) : Effect
  /-- Call `setMessage(v)` of `ChatApp.js`: the input buffer. -/
  | setMessage (v : String) : Effect
  /-- Call `setVoiceInput(v)` of `App.js`. -/
  | setVoiceInput (v : JsVal) : Effect
  /-- Call `ws.send(JSON.stringify(frame))` on connection `conn`. -/
  | send (conn : Nat) (frame : JsVal) : Effect

/-- Result of running a handler: its effects in program order, and the exception that ended
it, if any. -/
structure Outcome where
  trace : List Effect
  raised : Option JsError

/-! ## `App.js` handlers -/

namespace App

/-- Bindings captured by the closures of one render of `App`: the state values `input` and
`messages` of that render and its local `let ws`, which holds a connection only when the
connection effect ran for this render (line 15). -/
structure Render where
  input : String
  messages : List Message
  ws : Option Nat

/-- Handler `ws.onmessage` (lines 21-24) with `messages` as captured by the render whose effect
installed it. -/
def onmessage (messages : List Message) (data : WireText) : Outcome :=
  match JSON_parse data with
  | .error e => ⟨[], some e⟩
  | .ok response =>
    match getProp response "reply" with
    | .error e => ⟨[], some e⟩
    | .ok reply => ⟨[.setMessages (messages ++ [⟨"Snowball", reply⟩])], none⟩

/-- Handler `sendCommand` (lines 41-47). -/
def sendCommand (r : Render) : Outcome :=
  if truthy (trim r.input) then
    match r.ws with
    | none =>
      ⟨[.setMessages (r.messages ++ [⟨"User", .str r.input⟩])], some .typeError⟩
    | some c =>
      ⟨[.setMessages (r.messages ++ [⟨"User", .str r.input⟩]),
        .send c (.obj [("command", .str r.input)]),
        .setInput ""], none⟩
  else ⟨[], none⟩

/-- Handler `Voice.onSpeechResults` (lines 55-60); `value` is the array `result.value`, whose
first element is `undefined` when the array is empty. -/
def onSpeechResults (r : Render) (value : List String) : Outcome :=
  let voiceMessage : JsVal := match value with
    | [] => .undefined
    | t :: _ => .str t
  match r.ws with
  | none =>
    ⟨[.setVoiceInput voiceMessage,
      .setMessages (r.messages ++ [⟨"User", voiceMessage⟩])], some .typeError⟩
  | some c =>
    ⟨[.setVoiceInput voiceMessage,
      .setMessages (r.messages ++ [⟨"User", voiceMessage⟩]),
      .send c (.obj [("command", voiceMessage)])], none⟩

end App

/-! ## `ChatApp.js` handlers -/

namespace ChatApp

/-- Bindings captured by the closures of one render of `ChatApp`: the state values `message`
and `ws` (`null` until the render that follows `setWs(socket)`). -/
structure Render where
  message : String
  ws : Option Nat

/-- Handler `socket.onmessage` (lines 14-17), called with `event.data = eventData`.  It parses
the text and hands an updater to `setChatHistory`; `data.response` is read inside the updater
(`replyUpdater`), so the handler itself raises only when `JSON.parse` does. -/
def onmessage (eventData : WireText) : Outcome :=
  match JSON_parse eventData with
  | .error e => ⟨[], some e⟩
  | .ok data => ⟨[.setChatHistoryReply data], none⟩

/-- The updater of line 16, `prevHistory => [...prevHistory, { sender: 'Snowball', text:
data.response }]`, with the `data` its closure captured, as React calls it on the transcript
of the moment. -/
def replyUpdater (data : JsVal) (prevHistory : List Message) : Except JsError (List Message) :=
  match getProp data "response" with
  | .error e => .error e
  | .ok response => .ok (prevHistory ++ [⟨"Snowball", response⟩])

/-- Handler `sendMessage` (lines 22-29). -/
def sendMessage (r : Render) : Outcome :=
  match r.ws with
  | none => ⟨[], none⟩
  | some c =>
    if truthy (trim r.message) then
      ⟨[.send c (.obj [("message", .str (trim r.message))]),
        .setChatHistory ⟨"You", .str r.message⟩,
        .setMessage ""], none⟩
    else ⟨[], none⟩

end ChatApp

/-! ## State cells and the application of effects -/

/-- State cells shared by the two screens, holding the latest values, updates queued since the
last render included, and the frames handed to `send` so far.  The cell `transcript` is
`messages` in `App.js` and `chatHistory` in `ChatApp.js`; the cell `input` is `input` in
`App.js` and `message` in `ChatApp.js`.  `stamp` counts the assignments
of the transcript cell: every assignment stores a freshly built array, so two reads return the
same array object exactly when the stamps agree.  `failed` holds the exception raised by an
updater while React applied it, if that happened: the update is then not made. -/
structure World where
  transcript : List Message
  stamp : Nat
  input : String
  voiceInput : JsVal
  sent : List (Nat × JsVal)
  failed : Option JsError

/-- Apply one effect to the state cells. -/
def Effect.apply (w : World) : Effect → World
  | .setMessages v => { w with transcript := v, stamp := w.stamp + 1 }
  | .setChatHistory m => { w with transcript := w.transcript ++ [m], stamp := w.stamp + 1 }
  | .setChatHistoryReply data =>
    match ChatApp.replyUpdater data w.transcript with
    | .ok history => { w with transcript := history, stamp := w.stamp + 1 }
    | .error e => { w with failed := some e }
  | .setInput v => { w with input := v }
  | .setMessage v => { w with input := v }
  | .setVoiceInput v => { w with voiceInput := v }
  | .send c frame => { w with sent := w.sent ++ [(c, frame)] }

/-- Apply the effects of a handler in program order; what it did before raising stays done. -/
def Outcome.run (o : Outcome) (w : World) : World :=
  o.trace.foldl Effect.apply w

/-- State cells of a freshly mounted screen: `useState('')`, `useState([])`. -/
def World.initial : World :=
  { transcript := [], stamp := 0, input := "", voiceInput := .str "", sent := [],
    failed := none }

/-! ## `App.js` as a transition system -/

namespace App

/-- A connection made by `new WebSocket(wsUrl)`: whether `close()` was called on it, and the
`messages` array in scope of the `onmessage` function installed on it. -/
structure Connection where
  closed : Bool
  messages : List Message

/-- The mounted `App` component between two events. -/
structure Screen where
  world : World
  /-- Bindings of the latest render; the Send button calls its `sendCommand`. -/
  render : Render
  /-- Bindings of the render whose effects ran last; `Voice.onSpeechResults` was installed by
  that render (lines 54-65) and captures them. -/
  effect : Render
  /-- Stamp of the `messages` array in the dependency array of the effects that ran last. -/
  effectStamp : Nat
  /-- Every connection created so far, oldest first; a connection is named by its index. -/
  conns : List Connection

/-- Call `close()` on a connection. -/
def closeAt (conns : List Connection) (c : Nat) : List Connection :=
  conns.modify (fun k => { k with closed := true }) c

/-- First render and first run of the effects: `ws = new WebSocket(wsUrl)` (line 15). -/
def mount : Screen :=
  { world := World.initial
    render := ⟨"", [], some 0⟩
    effect := ⟨"", [], some 0⟩
    effectStamp := 0
    conns := [⟨false, []⟩] }

/-- One render of `App` followed by its effects.  The body declares a fresh `let ws` (line 11).
When `messages` is the array the effects last ran with, `useEffect(..., [messages])` skips both
effects and `ws` stays `undefined`.  Otherwise the cleanup of the previous run closes its
connection (lines 35-37), and the effect opens a new one, assigns it to `ws` and installs the
handlers (lines 15-33, 55-60). -/
def rerender (s : Screen) : Screen :=
  if s.world.stamp = s.effectStamp then
    { s with render := ⟨s.world.input, s.world.transcript, none⟩ }
  else
    let r : Render := ⟨s.world.input, s.world.transcript, some s.conns.length⟩
    { s with
      render := r
      effect := r
      effectStamp := s.world.stamp
      conns := (match s.effect.ws with
                | some c => closeAt s.conns c
                | none => s.conns) ++ [⟨false, s.world.transcript⟩] }

/-- What can happen to the mounted screen. -/
inductive Event where
  /-- Text typed in the input, `onChangeText={setInput}` (line 77). -/
  | changeText (text : String) : Event
  /-- Press on Send, `onPress={sendCommand}` (line 81). -/
  | pressSend : Event
  /-- The speech engine calls `Voice.onSpeechResults` with `result.value = value`. -/
  | speechResults (value : List String) : Event
  /-- The transport calls the `onmessage` function installed on connection `conn`.  When it
  does so is its own affair: the handlers of the source do not look at the connection state. -/
  | message (conn : Nat) (data : WireText) : Event
  /-- React renders the component again and runs its effects. -/
  | rerender : Event

/-- One event. -/
def step (s : Screen) : Event → Screen
  | .changeText text => { s with world := Effect.apply s.world (.setInput text) }
  | .pressSend => { s with world := (sendCommand s.render).run s.world }
  | .speechResults value => { s with world := (onSpeechResults s.effect value).run s.world }
  | .message conn data =>
    match s.conns[conn]? with
    | none => s
    | some k => { s with world := (onmessage k.messages data).run s.world }
  | .rerender => rerender s

/-- A sequence of events, from the mounted screen. -/
def run (events : List Event) : Screen :=
  events.foldl step mount

end App

/-! ## `ChatApp.js` as a transition system -/

namespace ChatApp

/-- The mounted `ChatApp` component between two events. -/
structure Screen where
  world : World
  /-- State cell `ws` (`useState(null)`, `setWs(socket)`). -/
  ws : Option Nat
  /-- Bindings of the latest render; the Send button calls its `sendMessage`. -/
  render : Render
  /-- For every connection created so far, whether `close()` was called on it. -/
  conns : List Bool

/-- First render and the effect of lines 10-20, which runs once (`[]`): the first render sees
`ws === null`; the effect creates the socket and queues `setWs(socket)`. -/
def mount : Screen :=
  { world := World.initial
    ws := some 0
    render := ⟨"", none⟩
    conns := [false] }

/-- One render of `ChatApp`; its only effect has no dependency and does not run again. -/
def rerender (s : Screen) : Screen :=
  { s with render := ⟨s.world.input, s.ws⟩ }

/-- What can happen to the mounted screen. -/
inductive Event where
  /-- Text typed in the input, `onChangeText={setMessage}` (line 47). -/
  | changeText (text : String) : Event
  /-- Press on Send, `onPress={sendMessage}` (line 49). -/
  | pressSend : Event
  /-- The transport calls the `onmessage` function installed on connection `conn`.  When it
  does so is its own affair: the handlers of the source do not look at the connection state. -/
  | message (conn : Nat) (data : WireText) : Event
  /-- React renders the component again. -/
  | rerender : Event

/-- One event. -/
def step (s : Screen) : Event → Screen
  | .changeText text => { s with world := Effect.apply s.world (.setMessage text) }
  | .pressSend => { s with world := (sendMessage s.render).run s.world }
  | .message conn data =>
    match s.conns[conn]? with
    | none => s
    | some _ => { s with world := (onmessage data).run s.world }
  | .rerender => rerender s

/-- A sequence of events, from the mounted screen. -/
def run (events : List Event) : Screen :=
  events.foldl step mount

end ChatApp

/-! ## Vocabulary of the statements -/

/-- Whether the effect assigns the transcript. -/
def Effect.isAppend : Effect → Bool
  | .setMessages _ => true
  | .setChatHistory _ => true
  | .setChatHistoryReply _ => true
  | _ => false

/-- Whether the effect hands a frame to the connection. -/
def Effect.isSend : Effect → Bool
  | .send _ _ => true
  | _ => false

/-- The trace sends a frame, and assigns the transcript at an earlier position than its first
send. -/
def appendBeforeSend (t : List Effect) : Bool :=
  decide (t.findIdx Effect.isAppend < t.findIdx Effect.isSend)
    && decide (t.findIdx Effect.isSend < t.length)

/-- The trace assigns the transcript, and sends a frame at an earlier position than its first
assignment of the transcript. -/
def sendBeforeAppend (t : List Effect) : Bool :=
  decide (t.findIdx Effect.isSend < t.findIdx Effect.isAppend)
    && decide (t.findIdx Effect.isAppend < t.length)

/-- Whether the value is an object with a field of that name. -/
def hasField (v : JsVal) (name : String) : Bool :=
  match v with
  | .obj fields => (fields.lookup name).isSome
  | _ => false

/-! ## Facts about `trim` and truthiness -/

theorem truthy_iff_ne_empty (s : String) : truthy s = true ↔ s ≠ "" := by
  cases s with
  | mk data => cases data <;> simp [truthy, String.ext_iff]

theorem trimStart_eq_nil_iff (l : List Char) :
    trimStart l = [] ↔ ∀ c ∈ l, isWhiteSpace c = true := by
  induction l with
  | nil => simp [trimStart]
  | cons c cs ih =>
    by_cases h : isWhiteSpace c = true
    · simp [trimStart, h, ih]
    · simp [trimStart, h]

theorem trim_eq_empty_iff (s : String) :
    trim s = "" ↔ ∀ c ∈ s.data, isWhiteSpace c = true := by
  have key : ∀ l : List Char, (∀ c ∈ trimStart l, isWhiteSpace c = true) → trimStart l = [] := by
    intro l
    induction l with
    | nil => simp [trimStart]
    | cons c cs ih =>
      by_cases h : isWhiteSpace c = true
      · simpa [trimStart, h] using ih
      · simp [trimStart, h]
  have h1 : trim s = "" ↔ trimStart (trimStart s.data).reverse = [] := by
    simp [trim, String.ext_iff]
  rw [h1, trimStart_eq_nil_iff]
  constructor
  · intro h
    have h2 : trimStart s.data = [] := key _ (fun c hc => h c (by simpa using hc))
    exact (trimStart_eq_nil_iff _).1 h2
  · intro h
    have h2 : trimStart s.data = [] := (trimStart_eq_nil_iff _).2 h
    simp [h2]

/-! ## The submit handlers -/

/-- C1 (amended): for every input `s` whose trimmed form is non-empty, with a connection `c` in
scope, one call of the submit handler appends exactly one user entry with text `s` at the end
of the transcript and hands exactly one frame to the connection, without raising.  For
`sendCommand` of `App.js` this is stated for a render whose `messages` is the current
transcript, and the frame is `{ command: s }`; for `sendMessage` of `ChatApp.js` the frame is
`{ message: s.trim() }`. -/
theorem submit_appends_and_sends (s : String) (c : Nat) (w : World) (hs : trim s ≠ "") :
    ((App.sendCommand ⟨s, w.transcript, some c⟩).run w).transcript
        = w.transcript ++ [⟨"User", .str s⟩]
    ∧ ((App.sendCommand ⟨s, w.transcript, some c⟩).run w).sent
        = w.sent ++ [(c, .obj [("command", .str s)])]
    ∧ (App.sendCommand ⟨s, w.transcript, some c⟩).raised = none
    ∧ ((ChatApp.sendMessage ⟨s, some c⟩).run w).transcript
        = w.transcript ++ [⟨"You", .str s⟩]
    ∧ ((ChatApp.sendMessage ⟨s, some c⟩).run w).sent
        = w.sent ++ [(c, .obj [("message", .str (trim s))])]
    ∧ (ChatApp.sendMessage ⟨s, some c⟩).raised = none := by
  have ht : truthy (trim s) = true := (truthy_iff_ne_empty _).2 hs
  simp [App.sendCommand, ChatApp.sendMessage, ht, Outcome.run, Effect.apply]

/-- The accepted submission of the input `" hi "` on a fresh screen, connection `0`. -/
theorem submit_appends_and_sends_witness :
    trim " hi " ≠ ""
    ∧ ((App.sendCommand ⟨" hi ", World.initial.transcript, some 0⟩).run World.initial).transcript
        = World.initial.transcript ++ [⟨"User", .str " hi "⟩]
    ∧ ((App.sendCommand ⟨" hi ", World.initial.transcript, some 0⟩).run World.initial).sent
        = World.initial.sent ++ [(0, .obj [("command", .str " hi ")])]
    ∧ (App.sendCommand ⟨" hi ", World.initial.transcript, some 0⟩).raised = none
    ∧ ((ChatApp.sendMessage ⟨" hi ", some 0⟩).run World.initial).transcript
        = World.initial.transcript ++ [⟨"You", .str " hi "⟩]
    ∧ ((ChatApp.sendMessage ⟨" hi ", some 0⟩).run World.initial).sent
        = World.initial.sent ++ [(0, .obj [("message", .str (trim " hi "))])]
    ∧ (ChatApp.sendMessage ⟨" hi ", some 0⟩).raised = none :=
  ⟨by decide, submit_appends_and_sends " hi " 0 World.initial (by decide)⟩

/-- C1 as stated fails.  In `ChatApp.js` the frame for the input `" hi "` carries `"hi"`, not
the input.  In `App.js`, when a reply entry `yo` has been stored since the render of the
handler, the call of `sendCommand` with input `hi` turns the transcript `[a, yo]` into
`[a, hi]`: the user entry has not been added at the end of the transcript. -/
theorem submit_frame_not_verbatim :
    ((ChatApp.sendMessage ⟨" hi ", some 0⟩).run World.initial).sent
        = [(0, .obj [("message", .str "hi")])]
    ∧ "hi" ≠ " hi "
    ∧ (App.run [.changeText "hi", .message 0 (.json (.obj [("reply", .str "a")])), .rerender,
                .message 1 (.json (.obj [("reply", .str "yo")]))]).world.transcript
        = [⟨"Snowball", .str "a"⟩, ⟨"Snowball", .str "yo"⟩]
    ∧ (App.run [.changeText "hi", .message 0 (.json (.obj [("reply", .str "a")])), .rerender,
                .message 1 (.json (.obj [("reply", .str "yo")]))]).render.ws = some 1
    ∧ (App.run [.changeText "hi", .message 0 (.json (.obj [("reply", .str "a")])), .rerender,
                .message 1 (.json (.obj [("reply", .str "yo")])),
                .pressSend]).world.transcript
        = [⟨"Snowball", .str "a"⟩, ⟨"User", .str "hi"⟩] :=
  ⟨rfl, by decide, rfl, rfl, rfl⟩

/-- C2: for every input that is empty or made of white space only, whatever the render
captured, `sendCommand` and `sendMessage` perform no effect and do not raise; the transcript,
the input buffer and the list of frames sent are what they were. -/
theorem blank_submit_noop (s : String) (msgs : List Message) (ws : Option Nat) (w : World)
    (hs : ∀ ch ∈ s.data, isWhiteSpace ch = true) :
    App.sendCommand ⟨s, msgs, ws⟩ = ⟨[], none⟩
    ∧ (App.sendCommand ⟨s, msgs, ws⟩).run w = w
    ∧ ChatApp.sendMessage ⟨s, ws⟩ = ⟨[], none⟩
    ∧ (ChatApp.sendMessage ⟨s, ws⟩).run w = w := by
  have ht : trim s = "" := (trim_eq_empty_iff s).2 hs
  cases ws <;> simp [App.sendCommand, ChatApp.sendMessage, ht, truthy, Outcome.run]

/-- The submission of three spaces on a fresh screen. -/
theorem blank_submit_noop_witness :
    (∀ ch ∈ "   ".data, isWhiteSpace ch = true)
    ∧ App.sendCommand ⟨"   ", [], some 0⟩ = ⟨[], none⟩
    ∧ (App.sendCommand ⟨"   ", [], some 0⟩).run World.initial = World.initial
    ∧ ChatApp.sendMessage ⟨"   ", some 0⟩ = ⟨[], none⟩
    ∧ (ChatApp.sendMessage ⟨"   ", some 0⟩).run World.initial = World.initial :=
  ⟨by decide, blank_submit_noop "   " [] (some 0) World.initial (by decide)⟩

/-- C10: without a connection in scope the two screens differ.  `sendMessage` of `ChatApp.js`
with `ws === null` does nothing for every input `t`: no effect, no exception.  `sendCommand` of
`App.js` with `ws` undefined and an input `s` whose trimmed form is non-empty requests the
transcript append and raises at the send: nothing is sent and the input buffer is not cleared.
Such a render exists: a render for which the connection effect is skipped has `ws`
undefined. -/
theorem submit_without_handle (t s : String) (msgs : List Message) (w : World)
    (scr : App.Screen) (hs : trim s ≠ "") (hdeps : scr.world.stamp = scr.effectStamp) :
    ChatApp.sendMessage ⟨t, none⟩ = ⟨[], none⟩
    ∧ (ChatApp.sendMessage ⟨t, none⟩).run w = w
    ∧ App.sendCommand ⟨s, msgs, none⟩
        = ⟨[.setMessages (msgs ++ [⟨"User", .str s⟩])], some .typeError⟩
    ∧ ((App.sendCommand ⟨s, msgs, none⟩).run w).transcript = msgs ++ [⟨"User", .str s⟩]
    ∧ ((App.sendCommand ⟨s, msgs, none⟩).run w).input = w.input
    ∧ ((App.sendCommand ⟨s, msgs, none⟩).run w).sent = w.sent
    ∧ (App.rerender scr).render.ws = none := by
  have ht : truthy (trim s) = true := (truthy_iff_ne_empty _).2 hs
  simp [App.sendCommand, ChatApp.sendMessage, ht, Outcome.run, Effect.apply, App.rerender, hdeps]

/-- The input `"hi"` typed on the freshly mounted `App` screen and rendered: the connection
effect is skipped, and the submission raises. -/
theorem submit_without_handle_witness :
    trim "hi" ≠ ""
    ∧ (App.step App.mount (.changeText "hi")).world.stamp
        = (App.step App.mount (.changeText "hi")).effectStamp
    ∧ ChatApp.sendMessage ⟨"hi", none⟩ = ⟨[], none⟩
    ∧ (ChatApp.sendMessage ⟨"hi", none⟩).run World.initial = World.initial
    ∧ App.sendCommand ⟨"hi", [], none⟩
        = ⟨[.setMessages ([] ++ [⟨"User", .str "hi"⟩])], some .typeError⟩
    ∧ ((App.sendCommand ⟨"hi", [], none⟩).run World.initial).transcript
        = [] ++ [⟨"User", .str "hi"⟩]
    ∧ ((App.sendCommand ⟨"hi", [], none⟩).run World.initial).input = World.initial.input
    ∧ ((App.sendCommand ⟨"hi", [], none⟩).run World.initial).sent = World.initial.sent
    ∧ (App.rerender (App.step App.mount (.changeText "hi"))).render.ws = none :=
  ⟨by decide, rfl,
    submit_without_handle "hi" "hi" [] World.initial (App.step App.mount (.changeText "hi"))
      (by decide) rfl⟩

/-- C6 (amended): in an accepted submission the order of the two effects depends on the
screen.  In `App.js`, `sendCommand` (input `s` with non-empty trimmed form) and
`Voice.onSpeechResults` (transcription `t`) assign the transcript before they send the frame;
in `ChatApp.js`, `sendMessage` sends the frame before it appends the entry. -/
theorem submission_effect_order (s t inp : String) (rest : List String) (msgs : List Message)
    (c : Nat) (hs : trim s ≠ "") :
    (App.sendCommand ⟨s, msgs, some c⟩).trace
        = [.setMessages (msgs ++ [⟨"User", .str s⟩]),
           .send c (.obj [("command", .str s)]),
           .setInput ""]
    ∧ appendBeforeSend (App.sendCommand ⟨s, msgs, some c⟩).trace = true
    ∧ (App.onSpeechResults ⟨inp, msgs, some c⟩ (t :: rest)).trace
        = [.setVoiceInput (.str t),
           .setMessages (msgs ++ [⟨"User", .str t⟩]),
           .send c (.obj [("command", .str t)])]
    ∧ appendBeforeSend (App.onSpeechResults ⟨inp, msgs, some c⟩ (t :: rest)).trace = true
    ∧ (ChatApp.sendMessage ⟨s, some c⟩).trace
        = [.send c (.obj [("message", .str (trim s))]),
           .setChatHistory ⟨"You", .str s⟩,
           .setMessage ""]
    ∧ sendBeforeAppend (ChatApp.sendMessage ⟨s, some c⟩).trace = true := by
  have ht : truthy (trim s) = true := (truthy_iff_ne_empty _).2 hs
  simp [App.sendCommand, App.onSpeechResults, ChatApp.sendMessage, ht, appendBeforeSend,
    sendBeforeAppend, List.findIdx_cons, Effect.isAppend, Effect.isSend]

/-- Effect order for the typed input `"hi"` and the transcription `"hello"`. -/
theorem submission_effect_order_witness :
    trim "hi" ≠ ""
    ∧ (App.sendCommand ⟨"hi", [], some 0⟩).trace
        = [.setMessages ([] ++ [⟨"User", .str "hi"⟩]),
           .send 0 (.obj [("command", .str "hi")]),
           .setInput ""]
    ∧ appendBeforeSend (App.sendCommand ⟨"hi", [], some 0⟩).trace = true
    ∧ (App.onSpeechResults ⟨"", [], some 0⟩ ("hello" :: [])).trace
        = [.setVoiceInput (.str "hello"),
           .setMessages ([] ++ [⟨"User", .str "hello"⟩]),
           .send 0 (.obj [("command", .str "hello")])]
    ∧ appendBeforeSend (App.onSpeechResults ⟨"", [], some 0⟩ ("hello" :: [])).trace = true
    ∧ (ChatApp.sendMessage ⟨"hi", some 0⟩).trace
        = [.send 0 (.obj [("message", .str (trim "hi"))]),
           .setChatHistory ⟨"You", .str "hi"⟩,
           .setMessage ""]
    ∧ sendBeforeAppend (ChatApp.sendMessage ⟨"hi", some 0⟩).trace = true :=
  ⟨by decide, submission_effect_order "hi" "hello" "" [] [] 0 (by decide)⟩

/-- C6 as stated fails for `sendMessage` of `ChatApp.js`: for the input `"hi"` the send is the
first effect of the trace and the transcript append the second. -/
theorem chat_send_precedes_append :
    (ChatApp.sendMessage ⟨"hi", some 0⟩).trace
        = [.send 0 (.obj [("message", .str "hi")]),
           .setChatHistory ⟨"You", .str "hi"⟩,
           .setMessage ""]
    ∧ appendBeforeSend (ChatApp.sendMessage ⟨"hi", some 0⟩).trace = false :=
  ⟨rfl, by decide⟩

/-- For a transcription `t` whose trimmed form is non-empty, `Voice.onSpeechResults` assigns the
transcript and sends the frame exactly as `sendCommand` does for the input `t`; the remaining
effects differ (`setVoiceInput(t)` in one, `setInput('')` in the other). -/
theorem App.voice_matches_typed (t inp : String) (rest : List String) (msgs : List Message)
    (c : Nat) (ht : trim t ≠ "") :
    (App.onSpeechResults ⟨inp, msgs, some c⟩ (t :: rest)).trace.filter
        (fun e => e.isAppend || e.isSend)
      = (App.sendCommand ⟨t, msgs, some c⟩).trace.filter (fun e => e.isAppend || e.isSend)
    ∧ (App.onSpeechResults ⟨inp, msgs, some c⟩ (t :: rest)).raised
      = (App.sendCommand ⟨t, msgs, some c⟩).raised := by
  have h : truthy (trim t) = true := (truthy_iff_ne_empty _).2 ht
  simp [App.onSpeechResults, App.sendCommand, h, Effect.isAppend, Effect.isSend]

/-- C7, evaluation at the failing inputs: for the transcriptions `""` and `"   "`, whose
trimmed form is empty, `Voice.onSpeechResults` stores a user entry and sends a frame, where
`sendCommand` with the same text as input does nothing. -/
theorem voice_blank_still_submits :
    App.onSpeechResults ⟨"", [], some 0⟩ [""]
        = ⟨[.setVoiceInput (.str ""),
            .setMessages [⟨"User", .str ""⟩],
            .send 0 (.obj [("command", .str "")])], none⟩
    ∧ App.sendCommand ⟨"", [], some 0⟩ = ⟨[], none⟩
    ∧ App.onSpeechResults ⟨"", [], some 0⟩ ["   "]
        = ⟨[.setVoiceInput (.str "   "),
            .setMessages [⟨"User", .str "   "⟩],
            .send 0 (.obj [("command", .str "   ")])], none⟩
    ∧ App.sendCommand ⟨"   ", [], some 0⟩ = ⟨[], none⟩ :=
  ⟨rfl, rfl, rfl, rfl⟩

/-! ## The inbound handlers -/

theorem getProp_of_lacking (v : JsVal) (name : String) (hnull : v ≠ .null)
    (hundef : v ≠ .undefined) (h : hasField v name = false) :
    getProp v name = .ok .undefined := by
  cases v with
  | undefined => exact absurd rfl hundef
  | null => exact absurd rfl hnull
  | obj fields =>
    cases hl : fields.lookup name with
    | none => simp [getProp, hl]
    | some x => simp [hasField, hl] at h
  | bool b => rfl
  | num n => rfl
  | str t => rfl
  | arr xs => rfl

/-- C4 (amended): a malformed inbound frame is not absorbed by `onmessage`, on either screen.
When the text is no JSON document the handler raises the `SyntaxError` of `JSON.parse` having
performed no effect, so the transcript is unchanged.  When the text is the JSON document
`null`, the handler of `App.js` raises a `TypeError` at the property read, having performed no
effect; the handler of `ChatApp.js` hands its updater to `setChatHistory` and returns normally,
and the `TypeError` is raised by the updater when React applies it, to any transcript, so that
no entry is appended.  When the text is any other JSON value without the expected reply field
(`va` without `reply` for `App.js`, `vc` without `response` for `ChatApp.js`) the handler
returns normally and one remote entry whose text is `undefined` is appended (for `App.js`: to
the transcript its render captured, here the current one). -/
theorem onmessage_malformed (raw : String) (msgs prevHistory : List Message) (va vc : JsVal)
    (w : World)
    (hanull : va ≠ .null) (haundef : va ≠ .undefined) (hreply : hasField va "reply" = false)
    (hcnull : vc ≠ .null) (hcundef : vc ≠ .undefined)
    (hresponse : hasField vc "response" = false) :
    App.onmessage msgs (.garbage raw) = ⟨[], some .syntaxError⟩
    ∧ ChatApp.onmessage (.garbage raw) = ⟨[], some .syntaxError⟩
    ∧ App.onmessage msgs (.json .null) = ⟨[], some .typeError⟩
    ∧ ChatApp.onmessage (.json .null) = ⟨[.setChatHistoryReply .null], none⟩
    ∧ ChatApp.replyUpdater .null prevHistory = .error .typeError
    ∧ ((ChatApp.onmessage (.json .null)).run w).transcript = w.transcript
    ∧ ((ChatApp.onmessage (.json .null)).run w).failed = some .typeError
    ∧ (App.onmessage w.transcript (.json va)).raised = none
    ∧ ((App.onmessage w.transcript (.json va)).run w).transcript
        = w.transcript ++ [⟨"Snowball", .undefined⟩]
    ∧ (ChatApp.onmessage (.json vc)).raised = none
    ∧ ChatApp.replyUpdater vc prevHistory = .ok (prevHistory ++ [⟨"Snowball", .undefined⟩])
    ∧ ((ChatApp.onmessage (.json vc)).run w).transcript
        = w.transcript ++ [⟨"Snowball", .undefined⟩] := by
  have h1 := getProp_of_lacking va "reply" hanull haundef hreply
  have h2 := getProp_of_lacking vc "response" hcnull hcundef hresponse
  refine ⟨rfl, rfl, rfl, rfl, rfl, rfl, rfl, ?_⟩
  simp [App.onmessage, ChatApp.onmessage, ChatApp.replyUpdater, JSON_parse, h1, h2,
    Outcome.run, Effect.apply]

/-- The malformed texts `oops` and `null`, and a frame with the field of the other screen,
`{"response":"x"}` for `App.js` and `{"reply":"x"}` for `ChatApp.js`, on a fresh screen. -/
theorem onmessage_malformed_witness :
    JsVal.obj [("response", .str "x")] ≠ .null
    ∧ JsVal.obj [("response", .str "x")] ≠ .undefined
    ∧ hasField (.obj [("response", .str "x")]) "reply" = false
    ∧ JsVal.obj [("reply", .str "x")] ≠ .null
    ∧ JsVal.obj [("reply", .str "x")] ≠ .undefined
    ∧ hasField (.obj [("reply", .str "x")]) "response" = false
    ∧ App.onmessage [] (.garbage "oops") = ⟨[], some .syntaxError⟩
    ∧ ChatApp.onmessage (.garbage "oops") = ⟨[], some .syntaxError⟩
    ∧ App.onmessage [] (.json .null) = ⟨[], some .typeError⟩
    ∧ ChatApp.onmessage (.json .null) = ⟨[.setChatHistoryReply .null], none⟩
    ∧ ChatApp.replyUpdater .null [] = .error .typeError
    ∧ ((ChatApp.onmessage (.json .null)).run World.initial).transcript
        = World.initial.transcript
    ∧ ((ChatApp.onmessage (.json .null)).run World.initial).failed = some .typeError
    ∧ (App.onmessage World.initial.transcript
          (.json (.obj [("response", .str "x")]))).raised = none
    ∧ ((App.onmessage World.initial.transcript
          (.json (.obj [("response", .str "x")]))).run World.initial).transcript
        = World.initial.transcript ++ [⟨"Snowball", .undefined⟩]
    ∧ (ChatApp.onmessage (.json (.obj [("reply", .str "x")]))).raised = none
    ∧ ChatApp.replyUpdater (.obj [("reply", .str "x")]) []
        = .ok ([] ++ [⟨"Snowball", .undefined⟩])
    ∧ ((ChatApp.onmessage (.json (.obj [("reply", .str "x")]))).run World.initial).transcript
        = World.initial.transcript ++ [⟨"Snowball", .undefined⟩] :=
  ⟨by simp, by simp, by decide, by simp, by simp, by decide,
    onmessage_malformed "oops" [] [] (.obj [("response", .str "x")])
      (.obj [("reply", .str "x")]) World.initial
      (by simp) (by simp) (by decide) (by simp) (by simp) (by decide)⟩

/-- C4 as stated fails on both screens: on the text `oops`, no JSON document, the handler does
not return normally; on the text `{}`, a JSON document without the reply field, the transcript
of a fresh screen does not stay empty. -/
theorem onmessage_malformed_not_absorbed :
    (App.onmessage [] (.garbage "oops")).raised ≠ none
    ∧ (ChatApp.onmessage (.garbage "oops")).raised ≠ none
    ∧ ((App.onmessage [] (.json (.obj []))).run World.initial).transcript
        ≠ World.initial.transcript
    ∧ ((ChatApp.onmessage (.json (.obj []))).run World.initial).transcript
        ≠ World.initial.transcript := by
  simp [App.onmessage, ChatApp.onmessage, ChatApp.replyUpdater, JSON_parse, getProp,
    Outcome.run, Effect.apply, World.initial]

/-- In `ChatApp.js` every valid reply frame appends its entry to the transcript as it is at
that moment: a sequence of frames handled one after another, with or without a render in
between, extends the transcript by their entries in receipt order. -/
theorem ChatApp.replies_in_receipt_order (texts : List String) (w : World) :
    ((texts.map fun t => ChatApp.onmessage (.json (.obj [("response", .str t)]))).foldl
        (fun acc o => o.run acc) w).transcript
      = w.transcript ++ texts.map fun t => ⟨"Snowball", .str t⟩ := by
  induction texts generalizing w with
  | nil => simp
  | cons t ts ih =>
    simp only [List.map_cons, List.foldl_cons]
    rw [ih]
    simp [ChatApp.onmessage, ChatApp.replyUpdater, JSON_parse, getProp, Outcome.run,
      Effect.apply]

/-- In `App.js` one valid reply frame handled by the handler of a render whose `messages` is
the current transcript appends its entry. -/
theorem App.reply_appended_when_current (t : String) (w : World) :
    ((App.onmessage w.transcript (.json (.obj [("reply", .str t)]))).run w).transcript
      = w.transcript ++ [⟨"Snowball", .str t⟩] := by
  simp [App.onmessage, JSON_parse, getProp, Outcome.run, Effect.apply]

/-- In `App.js` two valid reply frames handled by the same handler, that is without a run of
the effect in between, leave the transcript its render captured followed by the entry of the
second frame only, whatever the transcript was. -/
theorem App.replies_same_render_keep_last (msgs : List Message) (a b : String) (w : World) :
    ((App.onmessage msgs (.json (.obj [("reply", .str b)]))).run
        ((App.onmessage msgs (.json (.obj [("reply", .str a)]))).run w)).transcript
      = msgs ++ [⟨"Snowball", .str b⟩] := by
  simp [App.onmessage, JSON_parse, getProp, Outcome.run, Effect.apply]

/-- C3, evaluation at the failing input: on the mounted `App` screen, two valid reply frames
`{"reply":"a"}` and `{"reply":"b"}` delivered on the connection before a render leave one
remote entry, the second; the entry of the first frame is lost. -/
theorem app_second_reply_overwrites_first :
    (App.run [.message 0 (.json (.obj [("reply", .str "a")])),
              .message 0 (.json (.obj [("reply", .str "b")]))]).world.transcript
      = [⟨"Snowball", .str "b"⟩] :=
  rfl

/-- C5, evaluation at the failing inputs on the mounted `App` screen.  Two spoken submissions
`hello` then `how are you` handled before a render: both frames are sent, in order, and the
transcript holds the second entry only.  A typed submission `hello` followed, before a render,
by a reply frame on the same connection: the reply entry replaces the user entry. -/
theorem app_stale_snapshot_loses_append :
    (App.run [.speechResults ["hello"], .speechResults ["how are you"]]).world.transcript
      = [⟨"User", .str "how are you"⟩]
    ∧ (App.run [.speechResults ["hello"], .speechResults ["how are you"]]).world.sent
      = [(0, .obj [("command", .str "hello")]), (0, .obj [("command", .str "how are you")])]
    ∧ (App.run [.changeText "hello", .message 0 (.json (.obj [("reply", .str "x")])),
                .rerender, .pressSend]).world.transcript
      = [⟨"Snowball", .str "x"⟩, ⟨"User", .str "hello"⟩]
    ∧ (App.run [.changeText "hello", .message 0 (.json (.obj [("reply", .str "x")])),
                .rerender, .pressSend,
                .message 1 (.json (.obj [("reply", .str "y")]))]).world.transcript
      = [⟨"Snowball", .str "x"⟩, ⟨"Snowball", .str "y"⟩] :=
  ⟨rfl, rfl, rfl, rfl⟩

/-- In `ChatApp.js` no event removes or replaces an entry: every step leaves the transcript as
it was or adds one entry at its end. -/
theorem ChatApp.step_extends_transcript (s : ChatApp.Screen) (e : ChatApp.Event) :
    (ChatApp.step s e).world.transcript = s.world.transcript
    ∨ ∃ m, (ChatApp.step s e).world.transcript = s.world.transcript ++ [m] := by
  cases e with
  | changeText text => left; rfl
  | rerender => left; rfl
  | pressSend =>
    cases hws : s.render.ws with
    | none => left; simp [ChatApp.step, ChatApp.sendMessage, hws, Outcome.run]
    | some c =>
      by_cases ht : truthy (trim s.render.message) = true
      · right
        exact ⟨⟨"You", .str s.render.message⟩, by
          simp [ChatApp.step, ChatApp.sendMessage, hws, ht, Outcome.run, Effect.apply]⟩
      · left; simp [ChatApp.step, ChatApp.sendMessage, hws, ht, Outcome.run]
  | message conn data =>
    cases hc : s.conns[conn]? with
    | none => left; simp [ChatApp.step, hc]
    | some k =>
      cases data with
      | garbage raw => left; simp [ChatApp.step, hc, ChatApp.onmessage, JSON_parse, Outcome.run]
      | json v =>
        cases hp : getProp v "response" with
        | error err =>
          left
          simp [ChatApp.step, hc, ChatApp.onmessage, ChatApp.replyUpdater, JSON_parse, hp,
            Outcome.run, Effect.apply]
        | ok x =>
          right
          exact ⟨⟨"Snowball", x⟩, by
            simp [ChatApp.step, hc, ChatApp.onmessage, ChatApp.replyUpdater, JSON_parse, hp,
              Outcome.run, Effect.apply]⟩

/-! ## Connections -/

/-- In `ChatApp.js` the mounted screen keeps the connection it created at mount: after every
sequence of events there is exactly one connection, and `close()` was not called on it. -/
theorem ChatApp.one_connection (events : List ChatApp.Event) :
    (ChatApp.run events).conns = [false] := by
  have hstep : ∀ (s : ChatApp.Screen) (e : ChatApp.Event),
      (ChatApp.step s e).conns = s.conns := by
    intro s e
    cases e with
    | changeText text => rfl
    | pressSend => rfl
    | rerender => rfl
    | message conn data =>
      cases hc : s.conns[conn]? <;> simp [ChatApp.step, hc]
  have hfold : ∀ (es : List ChatApp.Event) (s : ChatApp.Screen),
      (es.foldl ChatApp.step s).conns = s.conns := by
    intro es
    induction es with
    | nil => intro s; rfl
    | cons e es ih => intro s; rw [List.foldl_cons, ih, hstep]
  exact hfold events ChatApp.mount

/-- In `App.js` every render that follows an assignment of the transcript creates one more
connection and binds `ws` to it. -/
theorem App.rerender_after_change (s : App.Screen) (h : s.world.stamp ≠ s.effectStamp) :
    (App.rerender s).conns.length = s.conns.length + 1
    ∧ (App.rerender s).render.ws = some s.conns.length := by
  cases hws : s.effect.ws <;> simp [App.rerender, h, hws, App.closeAt]

/-- C8, evaluation at the failing input: on the mounted `App` screen, one reply frame followed
by the render it causes leaves two connections created, the first closed by the effect cleanup
and the second opened by the effect: the change of the transcript closed the connection and
replaced it. -/
theorem app_transcript_change_reconnects :
    (App.run [.message 0 (.json (.obj [("reply", .str "x")])), .rerender]).conns
      = [⟨true, []⟩, ⟨false, [⟨"Snowball", .str "x"⟩]⟩]
    ∧ (App.run [.message 0 (.json (.obj [("reply", .str "x")])), .rerender]).conns.length = 2
    ∧ (App.run [.message 0 (.json (.obj [("reply", .str "x")])), .rerender]).render.ws
      = some 1 :=
  ⟨rfl, rfl, rfl⟩

end Snowball
